import Mathlib

/-!
Verification development for the xuexitong crawler (`src/main.py`).

Python strings are embedded as `List Char` (`Str`). The Python string
primitives used by the crawler (`str.strip`, `str.split`, `int(...)`,
negative list indexing, substring membership) are modelled faithfully
below, and the crawler's own functions are translated one to one from
the source.
-/

set_option linter.unusedVariables false

abbrev Str := List Char

/-- Python `str.isspace` on a single character: the set of code points
`str.strip()` removes (ASCII whitespace, the C1 spaces, NBSP and the
Unicode space separators). Zero-width characters U+200B..U+200F are NOT
whitespace in Python. -/
def pyIsSpace (c : Char) : Bool :=
  let n := c.toNat
  n = 0x20 || (0x9 ≤ n && n ≤ 0xD) || (0x1C ≤ n && n ≤ 0x1F) || n = 0x85 || n = 0xA0 ||
  n = 0x1680 || (0x2000 ≤ n && n ≤ 0x200A) || n = 0x2028 || n = 0x2029 ||
  n = 0x202F || n = 0x205F || n = 0x3000

/-- Leading-whitespace removal, the first half of Python `str.strip()`. -/
def pyDropLeft (s : Str) : Str := s.dropWhile pyIsSpace

/-- Trailing-whitespace removal, the second half of Python `str.strip()`. -/
def pyDropRight (s : Str) : Str := (s.reverse.dropWhile pyIsSpace).reverse

/-- Python `str.strip()` with no argument. -/
def pyStrip (s : Str) : Str := pyDropRight (pyDropLeft s)

/-- Python `s.replace(a, b)` for single-character `a`, `b`. -/
def pyReplaceChar (a b : Char) (s : Str) : Str :=
  s.map (fun c => if c = a then b else c)

/-- Python `s.replace(a, "")` for a single-character `a`. -/
def pyRemoveChar (a : Char) (s : Str) : Str :=
  s.filter (fun c => c ≠ a)

/-- Helper for Python `s.split(sep)`: accumulates the current (first)
field and the remaining fields. -/
def pySplitCharAux (sep : Char) : Str → Str × List Str
  | [] => ([], [])
  | c :: rest =>
    let r := pySplitCharAux sep rest
    if c = sep then ([], r.1 :: r.2) else (c :: r.1, r.2)

/-- Python `s.split(sep)` for a single-character separator: splits at every
occurrence and keeps empty fields, so the result is always nonempty. -/
def pySplitChar (sep : Char) (s : Str) : List Str :=
  (pySplitCharAux sep s).1 :: (pySplitCharAux sep s).2

/-- Digit-string to number; `none` when empty or a non-digit occurs. -/
def pyDigitsToNat? (s : Str) : Option Nat :=
  if s = [] then none
  else s.foldl (fun acc c =>
    match acc with
    | none => none
    | some n => if c.isDigit then some (n * 10 + (c.toNat - '0'.toNat)) else none) (some 0)

/-- Python `int(s)` on a decimal literal: surrounding whitespace is
ignored, an optional sign is accepted, anything else raises `ValueError`
(modelled as `none`). -/
def pyInt (s : Str) : Option Int :=
  match pyStrip s with
  | '-' :: rest => (pyDigitsToNat? rest).map (fun n => -(n : Int))
  | '+' :: rest => (pyDigitsToNat? rest).map (fun n => (n : Int))
  | t => (pyDigitsToNat? t).map (fun n => (n : Int))

/-- Python `l[i]` with negative-index wraparound; `none` is `IndexError`. -/
def pyGet {α : Type} (l : List α) (i : Int) : Option α :=
  if 0 ≤ i then l[i.toNat]?
  else if 0 ≤ (l.length : Int) + i then l[((l.length : Int) + i).toNat]?
  else none

/-- Python `range(a, b)` materialised as a list (empty when `b ≤ a`). -/
def pyRange (a b : Int) : List Int :=
  (List.range (b - a).toNat).map (fun k => a + (k : Int))

/-- Python `max(l)` on a nonempty list of ints (`0` on `[]`, a case the
crawler never reaches because `int("")` fails first). -/
def pyMax : List Int → Int
  | [] => 0
  | x :: xs => xs.foldl max x

/-- Bool test: does `s` start with `needle`? (helper for substring search). -/
def strStartsWith : Str → Str → Bool
  | _, [] => true
  | [], _ :: _ => false
  | c :: s, n :: ns => c = n && strStartsWith s ns

/-- Python `needle in hay` on strings (substring containment). -/
def strIn (needle : Str) : Str → Bool
  | [] => strStartsWith [] needle
  | c :: rest => strStartsWith (c :: rest) needle || strIn needle rest

/-! ### The crawler's data model (`src/main.py` dataclasses) -/

/-- Question dataclass: `correct_answer` is a string except for
fill-blank questions where it is a list of strings (`Union[str, List[str]]`);
`question_answers` is the optional option list of choice questions. -/
structure Question where
  answer_type : Nat
  question_title : Str
  correct_answer : Str ⊕ List Str
  question_answers : Option (List Str)
  deriving DecidableEq

/-- Assignment dataclass (the `questions` field is attached later and is
not needed by any claim). -/
structure Assignment where
  work_id : Str
  assignment_name : Str
  assignment_status : Str
  assignment_url : Str
  course_id : Str
  deriving DecidableEq

/-- Resource dataclass of the resource-tree navigator. -/
structure Resource where
  dataname : Str
  datatype : Str
  dataid : Str
  deriving DecidableEq

/-- FanyaCrawler.ANSWER_TYPES, an insertion-ordered dict: classification
iterates it in this order and takes the first name contained in the
block title. -/
def ANSWER_TYPES : List (Str × Nat) :=
  [("单选题".toList, 1), ("多选题".toList, 2), ("填空题".toList, 3), ("判断题".toList, 4),
   ("思维导图".toList, 5), ("名词解释".toList, 6), ("简答题".toList, 7), ("其它".toList, 255)]

/-- FanyaCrawler.SUPPORTED_FILE_TYPES. -/
def SUPPORTED_FILE_TYPES : List Str := ["ppt".toList, "pptx".toList, "pdf".toList]

/-! ### Question extraction (`_normalize_title`, `_normalize_answers`,
`_parse_single_question`, `_parse_questions`) -/

/-- FanyaCrawler._normalize_title: strip, replace full-width parentheses
with ASCII ones, then delete U+200C, U+200E, U+200D, U+200F and NBSP, in
exactly the chained order of the source. -/
def _normalize_title (title : Str) : Str :=
  pyRemoveChar (Char.ofNat 0xA0)
    (pyRemoveChar (Char.ofNat 0x200F)
      (pyRemoveChar (Char.ofNat 0x200D)
        (pyRemoveChar (Char.ofNat 0x200E)
          (pyRemoveChar (Char.ofNat 0x200C)
            (pyReplaceChar '）' ')'
              (pyReplaceChar '（' '(' (pyStrip title)))))))

/-- FanyaCrawler._normalize_answers: split the raw option text on
newlines, keep the lines that are nonempty after stripping, and append a
single newline to each stripped survivor. -/
def _normalize_answers (answers_text : Str) : List Str :=
  (pySplitChar '\n' answers_text).filterMap
    (fun answer => if pyStrip answer = [] then none else some (pyStrip answer ++ ['\n']))

/-- One `div[aria-label="题目详情"]` element, reduced to the results of the
exact BeautifulSoup queries `_parse_single_question` performs on it:
`mark_name` is the `h3.mark_name.colorDeep` text (raw, un-normalised);
`mark_letter` the `ul.mark_letter.colorDeep.qtDetail` text; `mark_answer`
whether `div.mark_answer` exists; `rightAnswerFull` the text of
`span.rightAnswerContent.workTextWrap` inside that div, `rightAnswer` the
text of `span.rightAnswerContent`, `stuAnswer` the text of
`dd.textwrap.stuAnswerContent.reserve-newline`; `mark_fill` the `dd` texts
of `dl.mark_fill.colorGreen`. A `none` field means the query finds
nothing. -/
structure Detail where
  mark_name : Option Str
  mark_letter : Option Str
  mark_answer : Bool
  rightAnswerFull : Option Str
  rightAnswer : Option Str
  stuAnswer : Option Str
  mark_fill : Option (List Str)
  deriving DecidableEq

/-- FanyaCrawler._parse_single_question: dispatch on the already
classified `answer_type`. Types 1/2 (choice) read the option list and the
`rightAnswerContent workTextWrap` span; type 3 (fill-blank) reads the
`dd` list; type 4 (true-false) reads `rightAnswerContent` only; types 6/7
(term-definition/short-answer) read `rightAnswerContent` and fall back to
the student answer `dd`. Every other type (5, 255, ...) falls off the end
of the if/elif chain and returns `None`. -/
def _parse_single_question (detail : Detail) (answer_type : Nat) : Option Question :=
  match detail.mark_name with
  | none => none
  | some nm =>
    let question_title := _normalize_title nm
    if answer_type = 1 ∨ answer_type = 2 then
      let question_answers := match detail.mark_letter with
        | some t => _normalize_answers t
        | none => []
      let correct_answer := if detail.mark_answer then
          (match detail.rightAnswerFull with
           | some r => pyStrip r
           | none => [])
        else []
      some ⟨answer_type, question_title, Sum.inl correct_answer, some question_answers⟩
    else if answer_type = 3 then
      let correct_answers := match detail.mark_fill with
        | some dds => dds.map pyStrip
        | none => []
      some ⟨answer_type, question_title, Sum.inr correct_answers, none⟩
    else if answer_type = 4 then
      let correct_answer := if detail.mark_answer then
          (match detail.rightAnswer with
           | some r => pyStrip r
           | none => [])
        else []
      some ⟨answer_type, question_title, Sum.inl correct_answer, none⟩
    else if answer_type = 6 ∨ answer_type = 7 then
      let correct_answer := if detail.mark_answer then
          (match detail.rightAnswer with
           | some r => pyStrip r
           | none =>
             match detail.stuAnswer with
             | some s => pyStrip s
             | none => [])
        else []
      some ⟨answer_type, question_title, Sum.inl correct_answer, none⟩
    else none

/-- One `div.mark_item` block: the `h2.type_tit` heading text (raw) and
its `div[aria-label="题目详情"]` children. -/
structure QuestionBlock where
  type_tit : Option Str
  details : List Detail
  deriving DecidableEq

/-- Classification step of `_parse_questions`: first ANSWER_TYPES name
contained in the block title wins; `0` means no match. -/
def classifyBlockTitle (block_title : Str) : Nat :=
  ((ANSWER_TYPES.find? (fun p => strIn p.1 block_title)).map Prod.snd).getD 0

/-- FanyaCrawler._parse_questions: classify the block by its heading and
map `_parse_single_question` over the detail elements, keeping the
non-`None` results (a detail that parses to `None`, or whose parse
raises, is skipped). -/
def _parse_questions (block : QuestionBlock) : List Question :=
  match block.type_tit with
  | none => []
  | some raw =>
    let block_title := pyStrip raw
    let answer_type := classifyBlockTitle block_title
    if answer_type = 0 then []
    else block.details.filterMap (fun d => _parse_single_question d answer_type)

/-! ### get_assignment_questions (error handling around the fetch) -/

/-- Transport-level failure of a `requests` call (`raise_for_status` or a
connection error). -/
inductive TransportError where
  | timeout
  | httpStatus (code : Nat)
  deriving DecidableEq

/-- FanyaCrawler.get_assignment_questions, whose whole body is wrapped in
`try/except Exception`: a fetch failure is caught, logged and turned into
a normal `return []`. The result is `Except`-valued so that the
caller-visible outcome (propagated failure vs ordinary list) is explicit;
the source never produces the `error` case. -/
def get_assignment_questions (fetched : Except TransportError (List QuestionBlock)) :
    Except TransportError (List Question) :=
  match fetched with
  | Except.error _ => Except.ok []
  | Except.ok blocks => Except.ok ((blocks.map _parse_questions).flatten)

/-! ### get_assignments pagination -/

/-- One `li` of the work list, reduced to what the loop reads from it:
the `data` attribute (`""` when absent), the `workId` value that
`parse_qs(urlparse(data).query)` extracts from it (`""` when absent), and
the raw texts of the first `p` tag and its following `p` tag. -/
structure WorkLi where
  dataAttr : Str
  workId : Str
  name_p : Option Str
  status_p : Option Str
  deriving DecidableEq

/-- Per-item parse of the pagination loop body: items without a `data`
attribute or without a recoverable `workId` are skipped. -/
def parseWorkLi (courseId : Str) (li : WorkLi) : Option Assignment :=
  if li.dataAttr = [] then none
  else if li.workId = [] then none
  else
    let assignment_name := match li.name_p with
      | some t => pyStrip t
      | none => "未知作业".toList
    let assignment_status := match li.name_p with
      | none => "未知状态".toList
      | some _ =>
        match li.status_p with
        | some t => pyStrip t
        | none => "未知状态".toList
    some ⟨li.workId, assignment_name, assignment_status, li.dataAttr, courseId⟩

/-- One fetched work-list page: `pageNumScript` is the digit string that
`re.search(r"pageNum\s*:\s*(\d+)", script).group(1)` yields from the
first body script (`none` when the pattern is absent), and `li_tags` are
all `li` elements of the page. -/
structure WorkListPage where
  pageNumScript : Option Str
  li_tags : List WorkLi
  deriving DecidableEq

/-- The dynamic type of the Python variable `total_page`: it starts as
the int `1` and becomes the *string* `group(1)` when the page-count
pattern matches. -/
inductive TotalPage where
  | int (n : Int)
  | str (s : Str)
  deriving DecidableEq

/-- Python `total_page == page_num`: an int compares by value, a string
compared to an int is always `False`. -/
def totalPageEqNat : TotalPage → Nat → Bool
  | TotalPage.int n, m => n == (m : Int)
  | TotalPage.str _, _ => false

/-- Python `total_page != 1`: `False` only for the int `1`; any string is
`!= 1`. -/
def totalPageNeOne : TotalPage → Bool
  | TotalPage.int n => !(n == 1)
  | TotalPage.str _ => true

/-- The `while True` pagination loop of FanyaCrawler.get_assignments,
with an explicit fuel bound (the Python loop has no a-priori bound) and a
counter of pages fetched. `none` means the loop did not finish within
`fuel` iterations. -/
def get_assignments_go (fetch : Nat → WorkListPage) (courseId : Str) :
    Nat → Nat → TotalPage → List Assignment → Nat → Option (List Assignment × Nat)
  | 0, _, _, _, _ => none
  | Nat.succ fuel, page_num, total_page0, assignments, fetches =>
    let page := fetch page_num
    let total_page := if page_num = 1 then
        (match page.pageNumScript with
         | some s => TotalPage.str s
         | none => total_page0)
      else total_page0
    let fetches := fetches + 1
    if page.li_tags = [] then some (assignments, fetches)
    else
      let assignments := assignments ++ page.li_tags.filterMap (parseWorkLi courseId)
      if totalPageEqNat total_page page_num then some (assignments, fetches)
      else if totalPageNeOne total_page then
        get_assignments_go fetch courseId fuel (page_num + 1) total_page assignments fetches
      else
        get_assignments_go fetch courseId fuel page_num total_page assignments fetches

/-- FanyaCrawler.get_assignments: run the loop from page 1 with
`total_page = 1`. The second component of the result counts the page
fetches the loop performed. -/
def get_assignments (fetch : Nat → WorkListPage) (courseId : Str) (fuel : Nat) :
    Option (List Assignment × Nat) :=
  get_assignments_go fetch courseId fuel 1 (TotalPage.int 1) [] 0

/-! ### get_resource_list selection handling -/

/-- The Python exceptions the selection code can raise: `ValueError` from
`int(...)`, `IndexError` from list indexing, and the explicit
`FanyaCrawlerError` raises. -/
inductive PyErr where
  | valueError
  | indexError
  | crawlerError
  deriving DecidableEq

/-- The page-number to image-URL dict a resolved file yields. -/
abbrev PageImageMap := List (Int × Str)

/-- The inner `while True` parse of `user_choice` in get_resource_list:
a `-` anywhere selects the range branch (`interval[0]`, `interval[1]`
parsed by `int`, expanded by `range`, guarded by `len(todo) > len(dir)`);
otherwise a `,` selects the list branch (each field parsed by `int`,
guarded by `max(todo) > len(dir)`); otherwise the single-int branch
guarded by `todo > len(dir)`. No branch checks a lower bound. -/
def evalChoice (user_choice : Str) (n : Nat) : Except PyErr (Int ⊕ List Int) :=
  if user_choice.contains '-' then
    match pySplitChar '-' user_choice with
    | a :: b :: _ =>
      match pyInt a, pyInt b with
      | some x, some y =>
        let current_todo := pyRange x (y + 1)
        if current_todo.length > n then Except.error PyErr.crawlerError
        else Except.ok (Sum.inr current_todo)
      | _, _ => Except.error PyErr.valueError
    | _ => Except.error PyErr.valueError
  else if user_choice.contains ',' then
    match (pySplitChar ',' user_choice).mapM pyInt with
    | none => Except.error PyErr.valueError
    | some current_todo =>
      if pyMax current_todo > (n : Int) then Except.error PyErr.crawlerError
      else Except.ok (Sum.inr current_todo)
  else
    match pyInt user_choice with
    | none => Except.error PyErr.valueError
    | some current_todo =>
      if current_todo > (n : Int) then Except.error PyErr.crawlerError
      else Except.ok (Sum.inl current_todo)

/-- The `for index in current_todo` loop over a multi-element selection:
each index is resolved with Python indexing, a folder raises
`FanyaCrawlerError("不支持多选文件夹")`, a supported file is resolved through
`parse_resourse` (whose failure aborts everything), any other type is
skipped. `ret` accumulates the dataname-keyed results. -/
def resolveMulti (root_dir : List Resource)
    (parse_resourse : Resource → Except PyErr PageImageMap) :
    List Int → List (Str × PageImageMap) → Except PyErr (List (Str × PageImageMap))
  | [], ret => Except.ok ret
  | index :: rest, ret =>
    match pyGet root_dir (index - 1) with
    | none => Except.error PyErr.indexError
    | some r =>
      if r.datatype = "afolder".toList then Except.error PyErr.crawlerError
      else if SUPPORTED_FILE_TYPES.contains r.datatype then
        match parse_resourse r with
        | Except.error e => Except.error e
        | Except.ok pm => resolveMulti root_dir parse_resourse rest (ret ++ [(r.dataname, pm)])
      else resolveMulti root_dir parse_resourse rest ret

/-- Observable outcome of one pass of the selection loop. -/
inductive SelOutcome where
  | descend (r : Resource)
  | files (ret : List (Str × PageImageMap))
  | reprompt
  | err (e : PyErr)
  deriving DecidableEq

/-- One pass of the get_resource_list selection loop on the current
directory listing: parse `user_choice`, then either descend into a
folder, resolve the chosen file(s), fall through to a re-prompt (single
unsupported non-folder file), or raise. -/
def selectStep (root_dir : List Resource)
    (parse_resourse : Resource → Except PyErr PageImageMap)
    (user_choice : Str) : SelOutcome :=
  match evalChoice user_choice root_dir.length with
  | Except.error e => SelOutcome.err e
  | Except.ok (Sum.inl current_todo) =>
    match pyGet root_dir (current_todo - 1) with
    | none => SelOutcome.err PyErr.indexError
    | some r =>
      if r.datatype = "afolder".toList then SelOutcome.descend r
      else if SUPPORTED_FILE_TYPES.contains r.datatype then
        match parse_resourse r with
        | Except.ok pm => SelOutcome.files [(r.dataname, pm)]
        | Except.error e => SelOutcome.err e
      else SelOutcome.reprompt
  | Except.ok (Sum.inr current_todo) =>
    match resolveMulti root_dir parse_resourse current_todo [] with
    | Except.ok ret => SelOutcome.files ret
    | Except.error e => SelOutcome.err e

/-! ### DocumentExporter.exprot_pdf_from_url -/

/-- What PIL reports for a downloaded image: pixel dimensions and the
optional `dpi` entry of `img.info`. Dimensions and DPI are rationals so
that the point-size division is exact. -/
structure ImgInfo where
  width_px : ℚ
  height_px : ℚ
  dpi : Option (ℚ × ℚ)
  deriving DecidableEq

/-- The DPI actually used: `img.info.get('dpi', (72, 72))`, with both
components forced back to `(72, 72)` when either is zero. -/
def effectiveDpi (info : ImgInfo) : ℚ × ℚ :=
  match info.dpi with
  | none => (72, 72)
  | some d => if d.1 = 0 ∨ d.2 = 0 then (72, 72) else d

/-- One page appended to the FPDF object: its index (from the temp-file
name `page_{idx}.jpg`), its physical size in points, and the image it
holds. -/
structure PdfPage where
  page_idx : Nat
  width_pt : ℚ
  height_pt : ℚ
  content : Nat
  deriving DecidableEq

/-- `pdf.add_page(format=(w, h)); pdf.image(...)` for one downloaded
image: `width_pt = width_px * 72 / dpi[0]`, `height_pt = height_px * 72 /
dpi[1]`. -/
def mkPdfPage (props : Nat → ImgInfo) (p : Nat × Nat) : PdfPage :=
  let info := props p.2
  let d := effectiveDpi info
  ⟨p.1, info.width_px * 72 / d.1, info.height_px * 72 / d.2, p.2⟩

/-- Key order on index-tagged pairs, used by both `sorted(...)` calls. -/
def keyLe {κ α : Type} [LinearOrder κ] (a b : κ × α) : Prop := a.1 ≤ b.1

instance {κ α : Type} [LinearOrder κ] : DecidableRel (@keyLe κ α _) :=
  fun a b => inferInstanceAs (Decidable (a.1 ≤ b.1))

instance {κ α : Type} [LinearOrder κ] : IsTotal (κ × α) (@keyLe κ α _) :=
  ⟨fun a b => le_total a.1 b.1⟩

instance {κ α : Type} [LinearOrder κ] : IsTrans (κ × α) (@keyLe κ α _) :=
  ⟨fun _ _ _ h1 h2 => le_trans h1 h2⟩

/-- Strict key order, used to show sorting is insensitive to input order
when the keys are distinct. -/
def keyLt {κ α : Type} [LinearOrder κ] (a b : κ × α) : Prop := a.1 < b.1

instance {κ α : Type} [LinearOrder κ] : IsAntisymm (κ × α) (@keyLt κ α _) :=
  ⟨fun a b h1 h2 => absurd (lt_trans h1 h2) (lt_irrefl a.1)⟩

/-- Python `sorted(pairs, key=lambda x: x[0])` (a stable comparison
sort; insertion sort realises the same function). -/
def sortByFst {κ α : Type} [LinearOrder κ] (l : List (κ × α)) : List (κ × α) :=
  List.insertionSort keyLe l

/-- `sorted_urls = [url for _, url in sorted(image_urls.items(), key=lambda x: x[0])]`. -/
def sorted_urls (image_urls : List (Int × Str)) : List Str :=
  (sortByFst image_urls).map Prod.snd

/-- `download_image` on one `(idx, url)` work item: a transport failure
is logged and yields `None`, success yields the temp file
`page_{idx}.jpg` holding the body (the body is an opaque `Nat`). -/
def download_image (download : Str → Option Nat) (p : Nat × Str) : Option (Nat × Nat) :=
  match download p.2 with
  | some img => some (p.1, img)
  | none => none

/-- The `executor.map(download_image, enumerate(sorted_urls, start=1))`
phase followed by the `if result: image_paths.append(result)` filter:
`executor.map` yields results in submission order, and failed downloads
are dropped. -/
def download_results (download : Str → Option Nat) (urls : List Str) : List (Nat × Nat) :=
  (urls.enumFrom 1).filterMap (download_image download)

/-- `image_paths.sort(key=...)` followed by the page-append loop over the
sorted paths. -/
def assemblePdf (props : Nat → ImgInfo) (image_paths : List (Nat × Nat)) : List PdfPage :=
  (sortByFst image_paths).map (mkPdfPage props)

/-- DocumentExporter.exprot_pdf_from_url end to end: sort the URL dict by
page number, download with the worker pool, sort the surviving temp files
by embedded index, append one sized page per file, and unconditionally
write the document (`pdf.output`) — there is no code path that withholds
the output, so the `Option` is always `some`. -/
def exprot_pdf_from_url (download : Str → Option Nat) (props : Nat → ImgInfo)
    (image_urls : List (Int × Str)) : Option (List PdfPage) :=
  some (assemblePdf props (download_results download (sorted_urls image_urls)))

/-! ### Concrete inputs used by counterexamples and witnesses -/

/-- A work-list item with a recoverable workId. -/
def li_demo : WorkLi :=
  ⟨"w?workId=42".toList, "42".toList, some "作业一".toList, some "已完成".toList⟩

/-- A three-page listing whose page-1 script declares `pageNum : 2` and
whose pages 1 and 2 each hold one item while page 3 is empty. -/
def fetch_demo : Nat → WorkListPage := fun page_num =>
  if page_num = 1 then ⟨some "2".toList, [li_demo]⟩
  else if page_num = 2 then ⟨none, [li_demo]⟩
  else ⟨none, []⟩

/-- A directory listing of three supported (pdf) files. -/
def rdir_demo : List Resource :=
  [⟨"第一章.pdf".toList, "pdf".toList, "101".toList⟩,
   ⟨"第二章.pdf".toList, "pdf".toList, "102".toList⟩,
   ⟨"第三章.pdf".toList, "pdf".toList, "103".toList⟩]

/-- A parse_resourse stub that resolves every file to a one-page map. -/
def parse_demo : Resource → Except PyErr PageImageMap :=
  fun r => Except.ok [(1, r.dataid)]

/-- A directory listing holding a file and then a folder. -/
def rdir_folder_demo : List Resource :=
  [⟨"讲义.pdf".toList, "pdf".toList, "201".toList⟩,
   ⟨"第二章资料".toList, "afolder".toList, "202".toList⟩]

/-- A true-false detail with no published canonical answer but with a
recorded student answer. -/
def detail_tf_demo : Detail :=
  ⟨some "1. 地球是圆的（对/错）".toList, none, true, none, none, some "对".toList, none⟩

/-- A term-definition/short-answer style detail: canonical answer absent,
student answer present. -/
def detail_nd_demo : Detail :=
  ⟨some "2. 名词解释：引力".toList, none, true, none, none, some "一种基本相互作用".toList, none⟩

/-- A mind-map block: classification succeeds (type 5) but extraction has
no branch for it. -/
def block_mindmap_demo : QuestionBlock :=
  ⟨some "一、思维导图".toList, [detail_nd_demo]⟩

/-- Page-to-URL map used by the assembler examples. -/
def image_urls_demo : List (Int × Str) := [(2, "u2".toList), (1, "u1".toList)]

/-- A downloader for which every URL succeeds. -/
def download_ok_demo : Str → Option Nat := fun u =>
  if u = "u1".toList then some 100 else if u = "u2".toList then some 200 else none

/-- Image properties: no DPI metadata (so the 72 default applies). -/
def props_demo : Nat → ImgInfo := fun img => ⟨(img : ℚ), (img : ℚ), none⟩

/-- The successful downloads of `image_urls_demo` listed in reversed
(completion) order. -/
def gathered_demo : List (Nat × Nat) := [(2, 200), (1, 100)]

/-! ### Lemmas about the Python string primitives -/

lemma head_dropWhile_false (p : Char → Bool) :
    ∀ (l : List Char) (a : Char) (t : List Char), l.dropWhile p = a :: t → p a = false
  | [], a, t, h => by simp [List.dropWhile] at h
  | x :: xs, a, t, h => by
    rw [List.dropWhile_cons] at h
    cases hx : p x with
    | true => rw [hx] at h; simp at h; exact head_dropWhile_false p xs a t h
    | false =>
      rw [hx] at h; simp at h
      rw [← h.1]; exact hx

lemma dropWhile_of_head_false (p : Char → Bool) (a : Char) (l : List Char)
    (h : p a = false) : (a :: l).dropWhile p = a :: l := by
  rw [List.dropWhile_cons, h]; simp

lemma dropWhile_decompose (p : Char → Bool) :
    ∀ l : List Char, ∃ pre, l = pre ++ l.dropWhile p
  | [] => ⟨[], rfl⟩
  | c :: t => by
    cases hc : p c with
    | false => exact ⟨[], by rw [dropWhile_of_head_false p c t hc]; rfl⟩
    | true =>
      obtain ⟨pre, hp⟩ := dropWhile_decompose p t
      refine ⟨c :: pre, ?_⟩
      rw [List.dropWhile_cons, hc]; simpa using hp

lemma pyDropLeft_sublist (s : Str) : List.Sublist (pyDropLeft s) s :=
  List.dropWhile_sublist pyIsSpace

lemma pyDropRight_sublist (s : Str) : List.Sublist (pyDropRight s) s := by
  have h : List.Sublist (s.reverse.dropWhile pyIsSpace) s.reverse :=
    List.dropWhile_sublist pyIsSpace
  have h2 := h.reverse
  rwa [List.reverse_reverse] at h2

lemma pyStrip_sublist (s : Str) : List.Sublist (pyStrip s) s :=
  (pyDropRight_sublist (pyDropLeft s)).trans (pyDropLeft_sublist s)

lemma mem_of_mem_pyStrip {c : Char} {s : Str} (h : c ∈ pyStrip s) : c ∈ s :=
  (pyStrip_sublist s).subset h

lemma pyDropRight_head {x : Str} {a : Char} {t : Str}
    (h : pyDropRight x = a :: t) : ∃ t2, x = a :: t2 := by
  obtain ⟨pre, hp⟩ := dropWhile_decompose pyIsSpace x.reverse
  have hx : x = (x.reverse.dropWhile pyIsSpace).reverse ++ pre.reverse := by
    have := congrArg List.reverse hp
    rwa [List.reverse_reverse, List.reverse_append] at this
  unfold pyDropRight at h
  rw [h] at hx
  exact ⟨t ++ pre.reverse, by simpa using hx⟩

lemma pyStrip_head_false {s : Str} {a : Char} {t : Str}
    (h : pyStrip s = a :: t) : pyIsSpace a = false := by
  unfold pyStrip at h
  obtain ⟨t2, ht2⟩ := pyDropRight_head h
  exact head_dropWhile_false pyIsSpace s a t2 ht2

lemma pyStrip_reverse_head_false {s : Str} {a : Char} {t : Str}
    (h : (pyStrip s).reverse = a :: t) : pyIsSpace a = false := by
  unfold pyStrip pyDropRight at h
  rw [List.reverse_reverse] at h
  exact head_dropWhile_false pyIsSpace (pyDropLeft s).reverse a t h

lemma stripped_reverse_dropWhile (s : Str) :
    (pyStrip s).reverse.dropWhile pyIsSpace = (pyStrip s).reverse := by
  cases h : (pyStrip s).reverse with
  | nil => simp
  | cons a t =>
    rw [dropWhile_of_head_false pyIsSpace a t (pyStrip_reverse_head_false h)]

lemma pyDropRight_pyStrip (s : Str) : pyDropRight (pyStrip s) = pyStrip s := by
  unfold pyDropRight
  rw [stripped_reverse_dropWhile, List.reverse_reverse]

lemma pyDropLeft_pyStrip (s : Str) : pyDropLeft (pyStrip s) = pyStrip s := by
  cases h : pyStrip s with
  | nil => simp [pyDropLeft, List.dropWhile]
  | cons a t =>
    unfold pyDropLeft
    rw [dropWhile_of_head_false pyIsSpace a t (pyStrip_head_false h)]

lemma pyStrip_append_space (s : Str) (c : Char) (hc : pyIsSpace c = true) :
    pyStrip (pyStrip s ++ [c]) = pyStrip s := by
  cases h : pyStrip s with
  | nil =>
    rw [List.nil_append]
    show pyDropRight (([c] : Str).dropWhile pyIsSpace) = []
    rw [List.dropWhile_cons, hc]
    simp [pyDropRight, List.dropWhile]
  | cons a t =>
    have h1 : pyDropLeft ((a :: t) ++ [c]) = (a :: t) ++ [c] := by
      rw [List.cons_append]
      exact dropWhile_of_head_false pyIsSpace a (t ++ [c]) (pyStrip_head_false h)
    show pyDropRight (pyDropLeft ((a :: t) ++ [c])) = a :: t
    rw [h1]
    unfold pyDropRight
    have hrev : (((a :: t) : Str) ++ [c]).reverse = c :: (a :: t).reverse := by simp
    rw [hrev, List.dropWhile_cons, hc]
    have h2 := stripped_reverse_dropWhile s
    rw [h] at h2
    simp only [if_true]
    rw [h2, List.reverse_reverse]

lemma pySplitCharAux_not_mem (sep : Char) :
    ∀ s : Str, sep ∉ (pySplitCharAux sep s).1 ∧
      ∀ part ∈ (pySplitCharAux sep s).2, sep ∉ part
  | [] => by simp [pySplitCharAux]
  | c :: rest => by
    obtain ⟨h1, h2⟩ := pySplitCharAux_not_mem sep rest
    by_cases hc : c = sep
    · simp only [pySplitCharAux, hc, if_true]
      exact ⟨by simp, by
        intro part hp
        rcases List.mem_cons.mp hp with h | h
        · rw [h]; exact h1
        · exact h2 part h⟩
    · simp only [pySplitCharAux, if_neg hc]
      refine ⟨?_, h2⟩
      intro hmem
      rcases List.mem_cons.mp hmem with h | h
      · exact hc h.symm
      · exact h1 h

lemma mem_pySplitChar_not_mem {sep : Char} {s part : Str}
    (h : part ∈ pySplitChar sep s) : sep ∉ part := by
  unfold pySplitChar at h
  obtain ⟨h1, h2⟩ := pySplitCharAux_not_mem sep s
  rcases List.mem_cons.mp h with hh | hh
  · rw [hh]; exact h1
  · exact h2 part hh

/-! ### Lemmas about character replacement and removal -/

lemma pyReplaceChar_id (a b : Char) :
    ∀ s : Str, a ∉ s → pyReplaceChar a b s = s
  | [], _ => rfl
  | x :: xs, h => by
    have hx : ¬(x = a) := fun he => h (he ▸ List.mem_cons_self x xs)
    have hxs : a ∉ xs := fun he => h (List.mem_cons_of_mem x he)
    show (if x = a then b else x) :: pyReplaceChar a b xs = x :: xs
    rw [if_neg hx, pyReplaceChar_id a b xs hxs]

lemma pyRemoveChar_id (a : Char) :
    ∀ s : Str, a ∉ s → pyRemoveChar a s = s
  | [], _ => rfl
  | x :: xs, h => by
    have hx : ¬(x = a) := fun he => h (he ▸ List.mem_cons_self x xs)
    have hxs : a ∉ xs := fun he => h (List.mem_cons_of_mem x he)
    show List.filter _ (x :: xs) = x :: xs
    rw [List.filter_cons]
    have : (decide ¬(x = a)) = true := by simp [hx]
    simp only [this, if_true]
    rw [show List.filter (fun c => decide ¬(c = a)) xs = pyRemoveChar a xs from rfl]
    rw [pyRemoveChar_id a xs hxs]

lemma mem_pyReplaceChar {a b c : Char} {s : Str}
    (h : c ∈ pyReplaceChar a b s) : c = b ∨ (c ∈ s ∧ c ≠ a) := by
  unfold pyReplaceChar at h
  obtain ⟨x, hx, hfx⟩ := List.mem_map.mp h
  by_cases hxa : x = a
  · left; rw [← hfx, if_pos hxa]
  · right
    rw [if_neg hxa] at hfx
    exact ⟨hfx ▸ hx, hfx ▸ hxa⟩

lemma mem_pyRemoveChar {a c : Char} {s : Str}
    (h : c ∈ pyRemoveChar a s) : c ∈ s ∧ c ≠ a := by
  unfold pyRemoveChar at h
  have := List.mem_filter.mp h
  refine ⟨this.1, ?_⟩
  have h2 := this.2
  simpa using h2

/-- The characters `_normalize_title` is supposed to eliminate. -/
def titleBad (c : Char) : Prop :=
  c = '（' ∨ c = '）' ∨ c = Char.ofNat 0x200C ∨ c = Char.ofNat 0x200E ∨
  c = Char.ofNat 0x200D ∨ c = Char.ofNat 0x200F ∨ c = Char.ofNat 0xA0

instance (c : Char) : Decidable (titleBad c) := by
  unfold titleBad; infer_instance

lemma normalize_title_not_bad (t : Str) : ∀ c ∈ _normalize_title t, ¬ titleBad c := by
  intro c hc
  unfold _normalize_title at hc
  obtain ⟨hc, hA0⟩ := mem_pyRemoveChar hc
  obtain ⟨hc, h200F⟩ := mem_pyRemoveChar hc
  obtain ⟨hc, h200D⟩ := mem_pyRemoveChar hc
  obtain ⟨hc, h200E⟩ := mem_pyRemoveChar hc
  obtain ⟨hc, h200C⟩ := mem_pyRemoveChar hc
  rcases mem_pyReplaceChar hc with hcb | ⟨hc, hcp⟩
  · rw [hcb]; decide
  · rcases mem_pyReplaceChar hc with hcb | ⟨hc, hop⟩
    · rw [hcb]; decide
    · intro hbad
      rcases hbad with h | h | h | h | h | h | h
      · exact hop h
      · exact hcp h
      · exact h200C h
      · exact h200E h
      · exact h200D h
      · exact h200F h
      · exact hA0 h

lemma normalize_title_of_not_bad (y : Str) (h : ∀ c ∈ y, ¬ titleBad c) :
    _normalize_title y = pyStrip y := by
  have hsub : ∀ c ∈ pyStrip y, ¬ titleBad c := fun c hc => h c (mem_of_mem_pyStrip hc)
  have h1 : '（' ∉ pyStrip y := fun hm => hsub _ hm (Or.inl rfl)
  have h2 : '）' ∉ pyStrip y := fun hm => hsub _ hm (Or.inr (Or.inl rfl))
  have h3 : Char.ofNat 0x200C ∉ pyStrip y := fun hm => hsub _ hm (Or.inr (Or.inr (Or.inl rfl)))
  have h4 : Char.ofNat 0x200E ∉ pyStrip y :=
    fun hm => hsub _ hm (Or.inr (Or.inr (Or.inr (Or.inl rfl))))
  have h5 : Char.ofNat 0x200D ∉ pyStrip y :=
    fun hm => hsub _ hm (Or.inr (Or.inr (Or.inr (Or.inr (Or.inl rfl)))))
  have h6 : Char.ofNat 0x200F ∉ pyStrip y :=
    fun hm => hsub _ hm (Or.inr (Or.inr (Or.inr (Or.inr (Or.inr (Or.inl rfl))))))
  have h7 : Char.ofNat 0xA0 ∉ pyStrip y :=
    fun hm => hsub _ hm (Or.inr (Or.inr (Or.inr (Or.inr (Or.inr (Or.inr rfl))))))
  unfold _normalize_title
  rw [pyReplaceChar_id '（' '(' (pyStrip y) h1]
  rw [pyReplaceChar_id '）' ')' (pyStrip y) h2]
  rw [pyRemoveChar_id (Char.ofNat 0x200C) (pyStrip y) h3]
  rw [pyRemoveChar_id (Char.ofNat 0x200E) (pyStrip y) h4]
  rw [pyRemoveChar_id (Char.ofNat 0x200D) (pyStrip y) h5]
  rw [pyRemoveChar_id (Char.ofNat 0x200F) (pyStrip y) h6]
  rw [pyRemoveChar_id (Char.ofNat 0xA0) (pyStrip y) h7]

/-! ### Claim C2 — idempotence of `_normalize_title` -/

/-- Claim C2 counterexample: `_normalize_title` is NOT idempotent. On
`"a ‌"` the initial strip is blocked by the trailing zero-width
non-joiner, whose later removal exposes a trailing space that only a
second application removes: first application gives `"a "`, second
gives `"a"`. -/
theorem normalize_title_not_idempotent :
    _normalize_title (_normalize_title ['a', ' ', Char.ofNat 0x200C]) ≠
      _normalize_title ['a', ' ', Char.ofNat 0x200C] := by decide

/-- Claim C2 (amended): a second application of `_normalize_title` is
exactly one more whitespace trim of the first application's result:
`_normalize_title (_normalize_title t) = pyStrip (_normalize_title t)`
for every `t`. Hence idempotence holds precisely on those inputs whose
normalised form is already whitespace-trimmed; it fails when a removed
invisible character shielded boundary whitespace from the initial
strip. -/
theorem normalize_title_twice_eq_strip (t : Str) :
    _normalize_title (_normalize_title t) = pyStrip (_normalize_title t) :=
  normalize_title_of_not_bad (_normalize_title t) (normalize_title_not_bad t)

/-! ### Claim C7 — shape of the normalised option list -/

/-- Claim C7: every entry of `_normalize_answers`' output is some
newline-free string followed by exactly one trailing newline, and is
nonempty after stripping. -/
theorem normalize_answers_entries_wf (t e : Str) (h : e ∈ _normalize_answers t) :
    (∃ s, e = s ++ ['\n'] ∧ '\n' ∉ s ∧ s ≠ []) ∧ pyStrip e ≠ [] := by
  unfold _normalize_answers at h
  obtain ⟨answer, hmem, hf⟩ := List.mem_filterMap.mp h
  by_cases hs : pyStrip answer = []
  · rw [if_pos hs] at hf; exact absurd hf (by simp)
  · rw [if_neg hs] at hf
    have he : e = pyStrip answer ++ ['\n'] := by
      have := Option.some.inj hf
      exact this.symm
    have hnl : '\n' ∉ answer := mem_pySplitChar_not_mem hmem
    have hnls : '\n' ∉ pyStrip answer := fun hm => hnl (mem_of_mem_pyStrip hm)
    refine ⟨⟨pyStrip answer, he, hnls, hs⟩, ?_⟩
    rw [he, pyStrip_append_space answer '\n' (by decide)]
    exact hs

/-- Claim C7 witness: evaluated on the two-option block
`"A. 对\n\n B. 错 "` the first produced entry is `"A. 对\n"`, and the
theorem's conclusion holds for it. -/
theorem normalize_answers_entries_wf_witness :
    ("A. 对\n".toList ∈ _normalize_answers "A. 对\n\n B. 错 ".toList) ∧
      ((∃ s, "A. 对\n".toList = s ++ ['\n'] ∧ '\n' ∉ s ∧ s ≠ []) ∧
        pyStrip "A. 对\n".toList ≠ []) :=
  ⟨by decide, normalize_answers_entries_wf "A. 对\n\n B. 错 ".toList "A. 对\n".toList (by decide)⟩

/-! ### Claim C3 — canonical answer with student-answer fallback -/

/-- Claim C3 counterexample: for a true-false (判断题, type 4) question
with no published canonical answer, the student answer recorded in the
same answer block is NOT used as a fallback — the extractor returns an
empty `correct_answer` even though `stuAnswer` is `"对"`. -/
theorem true_false_no_fallback_cex :
    _parse_single_question detail_tf_demo 4 =
      some ⟨4, "1. 地球是圆的(对/错)".toList, Sum.inl [], none⟩
    ∧ detail_tf_demo.rightAnswer = none
    ∧ detail_tf_demo.stuAnswer = some "对".toList
    ∧ pyStrip "对".toList = "对".toList
    ∧ (Sum.inl [] : Str ⊕ List Str) ≠ Sum.inl "对".toList := by
  refine ⟨by decide, rfl, rfl, by decide, by decide⟩

/-- Claim C3 (amended): when a canonical answer span is present, all of
types 4, 6 and 7 extract its stripped text; when it is absent, only
term-definition (6) and short-answer (7) fall back to the student's
recorded answer, while true-false (4) yields the empty string. -/
theorem answer_fallback_amended (d : Detail) (nm : Str)
    (hname : d.mark_name = some nm) (hdiv : d.mark_answer = true) :
    (∀ r, d.rightAnswer = some r → ∀ ty, ty = 4 ∨ ty = 6 ∨ ty = 7 →
        _parse_single_question d ty =
          some ⟨ty, _normalize_title nm, Sum.inl (pyStrip r), none⟩)
    ∧ (d.rightAnswer = none → ∀ s, d.stuAnswer = some s → ∀ ty, ty = 6 ∨ ty = 7 →
        _parse_single_question d ty =
          some ⟨ty, _normalize_title nm, Sum.inl (pyStrip s), none⟩)
    ∧ (d.rightAnswer = none →
        _parse_single_question d 4 =
          some ⟨4, _normalize_title nm, Sum.inl [], none⟩) := by
  refine ⟨?_, ?_, ?_⟩
  · intro r hr ty hty
    rcases hty with h | h | h <;> subst h <;>
      simp [_parse_single_question, hname, hdiv, hr]
  · intro hr s hs ty hty
    rcases hty with h | h <;> subst h <;>
      simp [_parse_single_question, hname, hdiv, hr, hs]
  · intro hr
    simp [_parse_single_question, hname, hdiv, hr]

/-- Claim C3 witness: the amended theorem applied to a term-definition
detail whose canonical answer is absent and whose student answer is
`"一种基本相互作用"`. -/
theorem answer_fallback_amended_witness :
    detail_nd_demo.mark_name = some "2. 名词解释：引力".toList
    ∧ detail_nd_demo.mark_answer = true
    ∧ _parse_single_question detail_nd_demo 6 =
        some ⟨6, _normalize_title "2. 名词解释：引力".toList,
          Sum.inl (pyStrip "一种基本相互作用".toList), none⟩ :=
  ⟨rfl, rfl,
    (answer_fallback_amended detail_nd_demo "2. 名词解释：引力".toList rfl rfl).2.1
      rfl "一种基本相互作用".toList rfl 6 (Or.inl rfl)⟩

/-! ### Claim C10 — classified but unextracted types 5 and 255 -/

lemma parse_single_five_none (d : Detail) : _parse_single_question d 5 = none := by
  cases hm : d.mark_name <;> simp [_parse_single_question, hm]

lemma parse_single_other_none (d : Detail) : _parse_single_question d 255 = none := by
  cases hm : d.mark_name <;> simp [_parse_single_question, hm]

/-- Claim C10: mind-map (思维导图, 5) and other (其它, 255) blocks classify
successfully but `_parse_single_question` has no branch for them, so every
detail yields `none` and the whole block parses to the empty question
list. -/
theorem mindmap_other_yield_no_questions :
    (∀ d : Detail, _parse_single_question d 5 = none ∧ _parse_single_question d 255 = none)
    ∧ ∀ (blk : QuestionBlock) (t : Str), blk.type_tit = some t →
        classifyBlockTitle (pyStrip t) = 5 ∨ classifyBlockTitle (pyStrip t) = 255 →
        _parse_questions blk = [] := by
  refine ⟨fun d => ⟨parse_single_five_none d, parse_single_other_none d⟩, ?_⟩
  intro blk t ht hcl
  unfold _parse_questions
  rw [ht]
  rcases hcl with h5 | h255
  · simp only [h5]
    rw [if_neg (by decide)]
    exact List.filterMap_eq_nil_iff.mpr (fun d _ => parse_single_five_none d)
  · simp only [h255]
    rw [if_neg (by decide)]
    exact List.filterMap_eq_nil_iff.mpr (fun d _ => parse_single_other_none d)

/-- Claim C10 witness: the block headed `"一、思维导图"` classifies to type 5
and parses to the empty list even though it holds a detail element. -/
theorem mindmap_other_yield_no_questions_witness :
    block_mindmap_demo.type_tit = some "一、思维导图".toList
    ∧ classifyBlockTitle (pyStrip "一、思维导图".toList) = 5
    ∧ block_mindmap_demo.details ≠ []
    ∧ _parse_questions block_mindmap_demo = [] :=
  ⟨rfl, by decide, by decide,
    mindmap_other_yield_no_questions.2 block_mindmap_demo "一、思维导图".toList rfl
      (Or.inl (by decide))⟩

/-! ### Claim C4 — fetch failure in get_assignment_questions -/

/-- Claim C4 counterexample: a transport failure of the question-view
fetch is NOT propagated; the `except Exception` handler turns it into a
plain empty question list, exactly as if the fetch had succeeded with no
content. -/
theorem questions_fetch_error_swallowed_cex :
    get_assignment_questions (Except.error TransportError.timeout) = Except.ok [] := rfl

/-- Claim C4 (amended): for every transport error,
`get_assignment_questions` swallows the error and returns an ordinary
empty list, indistinguishable from a successful fetch of a page with no
question blocks. -/
theorem questions_fetch_error_returns_nil (e : TransportError) :
    get_assignment_questions (Except.error e) = Except.ok [] ∧
      get_assignment_questions (Except.error e) = get_assignment_questions (Except.ok []) :=
  ⟨rfl, rfl⟩

/-! ### Claim C1 — pagination bound -/

/-- Claim C1 (code bug): on a listing whose page-1 script declares
`pageNum : 2` and whose pages keep yielding items until page 3, the loop
performs 3 page fetches, exceeding the claimed bound
`max(declared_total, 1) = 2`. The scraped count is kept as the *string*
`"2"` (`group(1)`), and Python's `"2" == page_num` is always `False`, so
termination condition (b) never fires once the pattern matches. -/
theorem get_assignments_exceeds_declared_total :
    (get_assignments fetch_demo "c1".toList 10).map Prod.snd = some 3
    ∧ pyDigitsToNat? (((fetch_demo 1).pageNumScript).getD []) = some 2
    ∧ Nat.max 2 1 < 3 :=
  ⟨by decide, by decide, by decide⟩

/-! ### Claim C5 — out-of-range selection indices -/

/-- Claim C5 (code bug): at a three-entry listing the selection `"0"` is
outside 1..3, yet the single-index branch's only guard is
`current_todo > len(root_dir)`, so `0` slips through and
`root_dir[0 - 1]` silently resolves — via Python negative indexing — to
the LAST entry, which is then fetched with no error. -/
theorem selection_zero_selects_last_entry :
    selectStep rdir_demo parse_demo "0".toList =
      SelOutcome.files [("第三章.pdf".toList, [(1, "103".toList)])]
    ∧ ¬((1 : Int) ≤ 0 ∧ (0 : Int) ≤ 3) :=
  ⟨by decide, by decide⟩

/-! ### Claim C8 — selection grammar and folder rejection -/

lemma evalChoice_two (n : Nat) (hn : 2 ≤ n) :
    evalChoice "2".toList n = Except.ok (Sum.inl 2) := by
  show (if (2 : Int) > (n : Int) then Except.error PyErr.crawlerError
        else Except.ok (Sum.inl 2)) = Except.ok (Sum.inl 2)
  rw [if_neg (by omega)]

lemma evalChoice_range13 (n : Nat) (hn : 3 ≤ n) :
    evalChoice "1-3".toList n = Except.ok (Sum.inr [1, 2, 3]) := by
  show (if (pyRange 1 (3 + 1)).length > n then Except.error PyErr.crawlerError
        else Except.ok (Sum.inr (pyRange 1 (3 + 1)))) = Except.ok (Sum.inr [1, 2, 3])
  rw [show pyRange 1 (3 + 1) = [1, 2, 3] from by decide]
  rw [if_neg (by simp; omega)]

lemma evalChoice_list135 (n : Nat) (hn : 5 ≤ n) :
    evalChoice "1,3,5".toList n = Except.ok (Sum.inr [1, 3, 5]) := by
  show (if pyMax [1, 3, 5] > (n : Int) then Except.error PyErr.crawlerError
        else Except.ok (Sum.inr [1, 3, 5])) = Except.ok (Sum.inr [1, 3, 5])
  rw [show pyMax [1, 3, 5] = 5 from by decide]
  rw [if_neg (by omega)]

lemma resolveMulti_folder_error (root_dir : List Resource)
    (pr : Resource → Except PyErr PageImageMap) :
    ∀ (todo : List Int) (ret : List (Str × PageImageMap)) (i : Int) (r : Resource),
      i ∈ todo → pyGet root_dir (i - 1) = some r → r.datatype = "afolder".toList →
      ∃ e, resolveMulti root_dir pr todo ret = Except.error e
  | [], ret, i, r, hmem, _, _ => absurd hmem (List.not_mem_nil i)
  | index :: rest, ret, i, r, hmem, hget, hfold => by
    rcases List.mem_cons.mp hmem with hi | hi
    · subst hi
      exact ⟨PyErr.crawlerError, by simp [resolveMulti, hget, hfold]⟩
    · cases hg : pyGet root_dir (index - 1) with
      | none => exact ⟨PyErr.indexError, by simp [resolveMulti, hg]⟩
      | some r2 =>
        by_cases hf : r2.datatype = "afolder".toList
        · exact ⟨PyErr.crawlerError, by simp [resolveMulti, hg, hf]⟩
        · have hf2 : ¬(r2.datatype = ['a', 'f', 'o', 'l', 'd', 'e', 'r']) := by
            simpa using hf
          by_cases hsupp : r2.datatype ∈ SUPPORTED_FILE_TYPES
          · cases hpr : pr r2 with
            | error e2 => exact ⟨e2, by simp [resolveMulti, hg, hf2, hsupp, hpr]⟩
            | ok pm =>
              obtain ⟨e2, he⟩ := resolveMulti_folder_error root_dir pr rest
                (ret ++ [(r2.dataname, pm)]) i r hi hget hfold
              exact ⟨e2, by rw [← he]; simp [resolveMulti, hg, hf2, hsupp, hpr]⟩
          · obtain ⟨e2, he⟩ := resolveMulti_folder_error root_dir pr rest ret i r hi hget hfold
            exact ⟨e2, by rw [← he]; simp [resolveMulti, hg, hf2, hsupp]⟩

/-- Claim C8: the selection grammar maps `"2"` to the single index 2,
`"1-3"` to `[1, 2, 3]` and `"1,3,5"` to `[1, 3, 5]` (whenever the
upper-bound guards pass), and a multi-element selection that resolves any
of its indices to a folder is rejected with an error. -/
theorem selection_grammar_spec (n : Nat) (hn : 5 ≤ n) :
    (evalChoice "2".toList n = Except.ok (Sum.inl 2)
     ∧ evalChoice "1-3".toList n = Except.ok (Sum.inr [1, 2, 3])
     ∧ evalChoice "1,3,5".toList n = Except.ok (Sum.inr [1, 3, 5]))
    ∧ ∀ (root_dir : List Resource) (pr : Resource → Except PyErr PageImageMap)
        (todo : List Int) (ret : List (Str × PageImageMap)) (i : Int) (r : Resource),
        i ∈ todo → pyGet root_dir (i - 1) = some r → r.datatype = "afolder".toList →
        ∃ e, resolveMulti root_dir pr todo ret = Except.error e := by
  refine ⟨⟨evalChoice_two n (by omega), evalChoice_range13 n (by omega),
    evalChoice_list135 n hn⟩, ?_⟩
  intro root_dir pr todo ret i r hmem hget hfold
  exact resolveMulti_folder_error root_dir pr todo ret i r hmem hget hfold

/-- Claim C8 witness: the three grammar examples at a five-entry listing,
and the rejection of the two-element selection `[1, 2]` whose second
index is the folder of `rdir_folder_demo`. -/
theorem selection_grammar_spec_witness :
    5 ≤ 5
    ∧ (evalChoice "2".toList 5 = Except.ok (Sum.inl 2)
       ∧ evalChoice "1-3".toList 5 = Except.ok (Sum.inr [1, 2, 3])
       ∧ evalChoice "1,3,5".toList 5 = Except.ok (Sum.inr [1, 3, 5]))
    ∧ (2 : Int) ∈ [(1 : Int), 2]
    ∧ pyGet rdir_folder_demo (2 - 1) =
        some ⟨"第二章资料".toList, "afolder".toList, "202".toList⟩
    ∧ (∃ e, resolveMulti rdir_folder_demo parse_demo [1, 2] [] = Except.error e) := by
  have h := selection_grammar_spec 5 (le_refl 5)
  exact ⟨le_refl 5, h.1, by decide, by decide,
    h.2 rdir_folder_demo parse_demo [1, 2] []
      2 ⟨"第二章资料".toList, "afolder".toList, "202".toList⟩ (by decide) (by decide) rfl⟩

/-! ### Claims C6 and C9 — the concurrent PDF assembler -/

lemma map_fst_download_results_sublist (download : Str → Option Nat) :
    ∀ l : List (Nat × Str),
      List.Sublist ((l.filterMap (download_image download)).map Prod.fst) (l.map Prod.fst)
  | [] => List.Sublist.refl []
  | x :: xs => by
    cases hd : download x.2 with
    | none =>
      have hx : download_image download x = none := by simp [download_image, hd]
      simp only [List.filterMap_cons, hx, List.map_cons]
      exact List.Sublist.cons x.1 (map_fst_download_results_sublist download xs)
    | some img =>
      have hx : download_image download x = some (x.1, img) := by simp [download_image, hd]
      simp only [List.filterMap_cons, hx, List.map_cons]
      exact List.Sublist.cons₂ x.1 (map_fst_download_results_sublist download xs)

lemma nodup_fst_download_results (download : Str → Option Nat) (urls : List Str) :
    ((download_results download urls).map Prod.fst).Nodup := by
  have h1 := map_fst_download_results_sublist download (urls.enumFrom 1)
  rw [List.enumFrom_map_fst 1 urls] at h1
  exact (List.nodup_range' 1 urls.length 1 (by norm_num)).sublist h1

lemma sortByFst_sorted_le {κ α : Type} [LinearOrder κ] (l : List (κ × α)) :
    List.Sorted keyLe (sortByFst l) := List.sorted_insertionSort keyLe l

lemma sortByFst_perm {κ α : Type} [LinearOrder κ] (l : List (κ × α)) :
    List.Perm (sortByFst l) l := List.perm_insertionSort keyLe l

lemma sorted_lt_of_sorted_le_nodup {κ α : Type} [LinearOrder κ]
    (l : List (κ × α)) (hs : List.Sorted keyLe l) (hn : (l.map Prod.fst).Nodup) :
    List.Sorted keyLt l := by
  have hne : l.Pairwise (fun a b : κ × α => a.1 ≠ b.1) := List.pairwise_map.mp hn
  have hand : l.Pairwise (fun a b : κ × α => keyLe a b ∧ a.1 ≠ b.1) :=
    List.Pairwise.and hs hne
  exact hand.imp (fun h => lt_of_le_of_ne h.1 h.2)

lemma sortByFst_eq_of_perm {κ α : Type} [LinearOrder κ] (l₁ l₂ : List (κ × α))
    (hp : List.Perm l₁ l₂) (hn : (l₂.map Prod.fst).Nodup) :
    sortByFst l₁ = sortByFst l₂ := by
  have hperm : List.Perm (sortByFst l₁) (sortByFst l₂) :=
    (sortByFst_perm l₁).trans (hp.trans (sortByFst_perm l₂).symm)
  have hn1 : ((sortByFst l₂).map Prod.fst).Nodup :=
    (((sortByFst_perm l₂).map Prod.fst).nodup_iff).mpr hn
  have hn2 : ((sortByFst l₁).map Prod.fst).Nodup :=
    ((hperm.map Prod.fst).nodup_iff).mpr hn1
  exact List.eq_of_perm_of_sorted hperm
    (sorted_lt_of_sorted_le_nodup _ (sortByFst_sorted_le l₁) hn2)
    (sorted_lt_of_sorted_le_nodup _ (sortByFst_sorted_le l₂) hn1)

/-- Claim C6 counterexample: when every single page download fails, the
assembler does NOT treat the run as a total failure — it still produces
an output document, one with zero pages. -/
theorem pdf_zero_success_still_outputs_cex :
    exprot_pdf_from_url (fun _ => none) props_demo image_urls_demo = some []
    ∧ download_results (fun _ => none) (sorted_urls image_urls_demo) = [] :=
  ⟨by decide, by decide⟩

/-- Claim C6 (amended): a failed individual page download merely drops
that page, but there is no zero-success special case: the document is
written unconditionally, with exactly one page per successful download —
including a zero-page document when nothing succeeds. -/
theorem pdf_partial_failure_drops_pages (image_urls : List (Int × Str))
    (download : Str → Option Nat) (props : Nat → ImgInfo) :
    ∃ pages, exprot_pdf_from_url download props image_urls = some pages
      ∧ pages.length = (download_results download (sorted_urls image_urls)).length := by
  refine ⟨assemblePdf props (download_results download (sorted_urls image_urls)), rfl, ?_⟩
  unfold assemblePdf sortByFst
  rw [List.length_map]
  exact (List.perm_insertionSort keyLe _).length_eq

/-- Claim C9: whatever order the worker pool delivers the successful
downloads in (`gathered` is any permutation of the in-order results),
the assembled document is the same, its pages are in ascending page-index
order, every page comes from a gathered download, and each page is sized
`px * 72 / dpi` with the DPI defaulting to 72 when absent or zero. -/
theorem pdf_pages_sorted_and_sized (image_urls : List (Int × Str))
    (download : Str → Option Nat) (props : Nat → ImgInfo)
    (gathered : List (Nat × Nat))
    (hperm : List.Perm gathered (download_results download (sorted_urls image_urls))) :
    assemblePdf props gathered =
        assemblePdf props (download_results download (sorted_urls image_urls))
    ∧ List.Sorted (fun a b : Nat => a ≤ b) ((assemblePdf props gathered).map PdfPage.page_idx)
    ∧ (∀ p ∈ assemblePdf props gathered, ∃ idx img, (idx, img) ∈ gathered ∧
        p = mkPdfPage props (idx, img))
    ∧ (∀ idx img,
        (mkPdfPage props (idx, img)).page_idx = idx
        ∧ (mkPdfPage props (idx, img)).width_pt =
            (props img).width_px * 72 / (effectiveDpi (props img)).1
        ∧ (mkPdfPage props (idx, img)).height_pt =
            (props img).height_px * 72 / (effectiveDpi (props img)).2)
    ∧ (∀ info : ImgInfo,
        (info.dpi = none → effectiveDpi info = (72, 72))
        ∧ ∀ a b : ℚ, info.dpi = some (a, b) →
            ((a = 0 ∨ b = 0) → effectiveDpi info = (72, 72))
            ∧ (¬(a = 0 ∨ b = 0) → effectiveDpi info = (a, b))) := by
  have hnd : ((download_results download (sorted_urls image_urls)).map Prod.fst).Nodup :=
    nodup_fst_download_results download _
  refine ⟨?_, ?_, ?_, ?_, ?_⟩
  · unfold assemblePdf
    rw [sortByFst_eq_of_perm gathered _ hperm hnd]
  · have hs : List.Sorted keyLe (sortByFst gathered) := sortByFst_sorted_le gathered
    unfold assemblePdf
    rw [List.map_map]
    exact List.pairwise_map.mpr (hs.imp (fun h => h))
  · intro p hp
    unfold assemblePdf at hp
    obtain ⟨pr, hpr, hmk⟩ := List.mem_map.mp hp
    obtain ⟨idx, img⟩ := pr
    exact ⟨idx, img, (sortByFst_perm gathered).subset hpr, hmk.symm⟩
  · intro idx img
    exact ⟨rfl, rfl, rfl⟩
  · intro info
    constructor
    · intro h; simp [effectiveDpi, h]
    · intro a b hab
      constructor
      · intro h0; simp [effectiveDpi, hab, h0]
      · intro h0; simp [effectiveDpi, hab, h0]

/-- Claim C9 witness: the theorem applied to the two-page map
`image_urls_demo` with the downloads delivered in reversed (completion)
order. -/
theorem pdf_pages_sorted_and_sized_witness :
    List.Perm gathered_demo (download_results download_ok_demo (sorted_urls image_urls_demo))
    ∧ (assemblePdf props_demo gathered_demo =
          assemblePdf props_demo (download_results download_ok_demo (sorted_urls image_urls_demo))
      ∧ List.Sorted (fun a b : Nat => a ≤ b)
          ((assemblePdf props_demo gathered_demo).map PdfPage.page_idx)
      ∧ (∀ p ∈ assemblePdf props_demo gathered_demo, ∃ idx img, (idx, img) ∈ gathered_demo ∧
          p = mkPdfPage props_demo (idx, img))
      ∧ (∀ idx img,
          (mkPdfPage props_demo (idx, img)).page_idx = idx
          ∧ (mkPdfPage props_demo (idx, img)).width_pt =
              (props_demo img).width_px * 72 / (effectiveDpi (props_demo img)).1
          ∧ (mkPdfPage props_demo (idx, img)).height_pt =
              (props_demo img).height_px * 72 / (effectiveDpi (props_demo img)).2)
      ∧ (∀ info : ImgInfo,
          (info.dpi = none → effectiveDpi info = (72, 72))
          ∧ ∀ a b : ℚ, info.dpi = some (a, b) →
              ((a = 0 ∨ b = 0) → effectiveDpi info = (72, 72))
              ∧ (¬(a = 0 ∨ b = 0) → effectiveDpi info = (a, b)))) :=
  ⟨by decide,
    pdf_pages_sorted_and_sized image_urls_demo download_ok_demo props_demo gathered_demo
      (by decide)⟩
